import Mathlib

/-!
Verification of the security and operational-control plane of the
snowflake-devhub snippet-storage server: account lockout, session
versioning, registration state machine, permission engine, ACL gate,
maintenance gate, and the fixed-window rate limiter.

Each definition is a shallow embedding of the corresponding JavaScript
function (file and symbol named in its doc comment).  Timestamps are
modelled as milliseconds-since-epoch integers, SQLite booleans as 0/1
naturals, and nullable columns as `Option`.
-/

/-- JavaScript `x || d` for an optional string: `null`/`undefined` and the
empty string are falsy. -/
def jsOrStr (v : Option String) (d : String) : String :=
  match v with
  | none => d
  | some s => if s = "" then d else s

/-- JavaScript `n || 1` for a numeric field: `0` (and a missing value,
which we fold into `0`) yields `1`. -/
def jsOrOne (n : Nat) : Nat :=
  if n = 0 then 1 else n

/-- JavaScript `String.prototype.toUpperCase` on the role and mode
strings this code handles (character-wise upper-casing). -/
def jsToUpper (s : String) : String :=
  String.mk (s.data.map Char.toUpper)

/-- A row of the `users` table, restricted to the columns the security
subsystem reads and writes (see the schema and
`server/src/repositories/userRepository.js`). -/
structure UserRec where
  id : Nat
  username : String
  role : Option String
  status : String
  is_admin : Nat
  is_active : Nat
  failed_login_attempts : Nat
  locked_until : Option Int
  force_password_reset : Bool
  session_version : Nat
  last_login_at : Option Int
deriving Repr, DecidableEq

/-- `userRepository.recordFailedLogin` (userRepository.js lines 375-396):
increments the failed-attempt counter and, when the incremented count has
reached `maxAttempts`, stores a lock expiry of
`Date.now() + Math.max(1, lockoutMinutes) * 60 * 1000`; otherwise the
statement writes NULL into `locked_until`. -/
def recordFailedLogin (u : UserRec) (maxAttempts lockoutMinutes now : Int) : UserRec :=
  let nextAttempts := u.failed_login_attempts + 1
  let lockedUntil : Option Int :=
    if (nextAttempts : Int) ≥ maxAttempts then
      some (now + max 1 lockoutMinutes * 60 * 1000)
    else
      none
  { u with failed_login_attempts := nextAttempts, locked_until := lockedUntil }

/-- `resetFailedLoginStmt` (userRepository.js lines 169-174). -/
def resetFailedLoginAttempts (u : UserRec) : UserRec :=
  { u with failed_login_attempts := 0, locked_until := none }

/-- `updateLastLoginStmt` (userRepository.js lines 153-159): stamps the
login time and clears the lockout counter and lock. -/
def updateLastLogin (u : UserRec) (now : Int) : UserRec :=
  { u with last_login_at := some now, failed_login_attempts := 0, locked_until := none }

/-- `unlockUserStmt` (userRepository.js lines 176-182): zeroes the
counter, clears the lock and forces status ACTIVE, guarded by
`id != 0`. -/
def unlockUser (u : UserRec) : UserRec :=
  if u.id ≠ 0 then
    { u with failed_login_attempts := 0, locked_until := none, status := "ACTIVE" }
  else
    u

/-- `updateStatusStmt` (userRepository.js lines 184-190), guarded by
`id != 0`; `is_active` mirrors the SUSPENDED check. -/
def updateStatus (u : UserRec) (status : String) : UserRec :=
  if u.id ≠ 0 then
    { u with status := status, is_active := if status = "SUSPENDED" then 0 else 1 }
  else
    u

/-- `updateRoleStmt` (userRepository.js lines 192-197), guarded by
`id != 0`; `is_admin` mirrors the SUPER_ADMIN/ADMIN check. -/
def updateRole (u : UserRec) (role : String) : UserRec :=
  if u.id ≠ 0 then
    { u with role := some role,
             is_admin := if role = "SUPER_ADMIN" ∨ role = "ADMIN" then 1 else 0 }
  else
    u

/-- `incrementSessionVersionStmt` (userRepository.js lines 199-203),
guarded by `id != 0`. -/
def incrementSessionVersion (u : UserRec) : UserRec :=
  if u.id ≠ 0 then
    { u with session_version := u.session_version + 1 }
  else
    u

/-- `setForcePasswordResetStmt` (userRepository.js lines 205-210): sets
the flag and bumps the session version in one statement, guarded by
`id != 0`. -/
def setForcePasswordReset (u : UserRec) (flag : Bool) : UserRec :=
  if u.id ≠ 0 then
    { u with force_password_reset := flag, session_version := u.session_version + 1 }
  else
    u

/-- Modelled from the spec: `server/src/repositories/adminRepository.js`
(the repository behind the admin user routes) is not among the provided
sources; per the spec, the admin "reset sessions" operation increments
the target's session version, realized with the
`incrementSessionVersionStmt` of userRepository.js. -/
def adminResetUserSessions (u : UserRec) : UserRec :=
  incrementSessionVersion u

/-- Modelled from the spec: `adminRepository.setUserStatus` is not among
the provided sources; per the spec, an admin status change updates the
status and increments the session version, realized with
`updateStatusStmt` and `incrementSessionVersionStmt`. -/
def adminSetUserStatus (u : UserRec) (status : String) : UserRec :=
  incrementSessionVersion (updateStatus u status)

/-- Modelled from the spec: `adminRepository.setUserRole` is not among
the provided sources; per the spec, an admin role change updates the
role and increments the session version, realized with
`updateRoleStmt` and `incrementSessionVersionStmt`. -/
def adminSetUserRole (u : UserRec) (role : String) : UserRec :=
  incrementSessionVersion (updateRole u role)

/-- Modelled from the spec: `adminRepository.setForcePasswordReset` is
not among the provided sources; it delegates to
`userRepository.setForcePasswordReset`, whose single statement already
bumps the session version. -/
def adminSetForcePasswordReset (u : UserRec) (flag : Bool) : UserRec :=
  setForcePasswordReset u flag

/-- A sample non-anonymous user used as concrete input in witnesses and
counterexamples. -/
def sampleUser : UserRec :=
  { id := 7
    username := "alice"
    role := some "USER"
    status := "ACTIVE"
    is_admin := 0
    is_active := 1
    failed_login_attempts := 0
    locked_until := none
    force_password_reset := false
    session_version := 1
    last_login_at := none }

/-- The singleton anonymous user row (id 0), as created by
`createAnonymousUserStmt` in userRepository.js. -/
def anonymousUser : UserRec :=
  { id := 0
    username := "anon"
    role := some "READ_ONLY"
    status := "ACTIVE"
    is_admin := 0
    is_active := 1
    failed_login_attempts := 0
    locked_until := none
    force_password_reset := false
    session_version := 1
    last_login_at := none }

/-- The JWT payload produced by `createSessionToken`
(middleware/auth.js lines 81-96). -/
structure TokenPayload where
  id : Nat
  username : String
  role : String
  status : String
  sessionVersion : Nat
deriving Repr, DecidableEq

/-- `createSessionToken` (middleware/auth.js lines 81-96): embeds id,
username, `role || 'USER'`, `status || 'ACTIVE'` and
`session_version || 1` into the signed payload. -/
def createSessionToken (u : UserRec) : TokenPayload :=
  { id := u.id
    username := u.username
    role := jsOrStr u.role "USER"
    status := if u.status = "" then "ACTIVE" else u.status
    sessionVersion := jsOrOne u.session_version }

/-- `isLocked` (routes/authRoutes.js lines 73-78): a user is locked iff
`locked_until` is set and strictly in the future. -/
def isLocked (u : UserRec) (now : Int) : Bool :=
  match u.locked_until with
  | none => false
  | some t => decide (t > now)

/-- Outcome of `router.post('/login')` (routes/authRoutes.js lines
179-292), paired below with the updated user row. -/
inductive LoginRes where
  | disabled : LoginRes
  | invalidCredentials : LoginRes
  | locked (lockedUntil : Option Int) : LoginRes
  | pendingApproval : LoginRes
  | suspended : LoginRes
  | success (token : TokenPayload) : LoginRes
deriving Repr, DecidableEq

/-- HTTP status of each login outcome, as set by the route handler. -/
def LoginRes.httpStatus : LoginRes → Nat
  | .disabled => 403
  | .invalidCredentials => 401
  | .locked _ => 423
  | .pendingApproval => 403
  | .suspended => 403
  | .success _ => 200

/-- `router.post('/login')` (routes/authRoutes.js lines 179-292).
`userOpt` is the `findByUsername` result, `passwordValid` the
`verifyPassword` oracle (bcrypt is opaque), and the second component is
the user row after the handler's repository writes (unchanged when no
write happens).  The ordering mirrors the source: disabled-accounts
check, user lookup, lock check, password check (recording a failed
login on mismatch), PENDING check, SUSPENDED/inactive check, then
`updateLastLogin` and token minting from the refreshed row. -/
def loginRoute (disableInternalAccounts : Bool) (userOpt : Option UserRec)
    (passwordValid : Bool) (maxAttempts lockoutMinutes now : Int) :
    LoginRes × Option UserRec :=
  if disableInternalAccounts then
    (.disabled, userOpt)
  else
    match userOpt with
    | none => (.invalidCredentials, none)
    | some u =>
      if isLocked u now then
        (.locked u.locked_until, some u)
      else if !passwordValid then
        (.invalidCredentials, some (recordFailedLogin u maxAttempts lockoutMinutes now))
      else if u.status = "PENDING" then
        (.pendingApproval, some u)
      else if u.status = "SUSPENDED" ∨ u.is_active = 0 then
        (.suspended, some u)
      else
        let refreshed := updateLastLogin u now
        (.success (createSessionToken refreshed), some refreshed)

/-- Credential material reaching `authenticateToken`: no token on the
request, a token `jwt.verify` rejects, or a verified payload. -/
inductive TokenInput where
  | missing : TokenInput
  | invalid : TokenInput
  | valid (p : TokenPayload) : TokenInput
deriving Repr, DecidableEq

/-- `req.user` as materialized by `authenticateToken`
(middleware/auth.js lines 136-144). -/
structure AuthedUser where
  id : Nat
  username : String
  role : String
  status : String
  is_admin : Nat
  session_version : Nat
  force_password_reset : Bool
deriving Repr, DecidableEq

/-- Outcome of `authenticateToken` (middleware/auth.js lines 98-150). -/
inductive AuthOutcome where
  | okAnonymous : AuthOutcome
  | noToken : AuthOutcome
  | invalidToken : AuthOutcome
  | userNotFound : AuthOutcome
  | suspended : AuthOutcome
  | sessionExpired : AuthOutcome
  | ok (user : AuthedUser) : AuthOutcome
deriving Repr, DecidableEq

/-- HTTP status of each `authenticateToken` outcome. -/
def AuthOutcome.statusCode : AuthOutcome → Nat
  | .okAnonymous => 200
  | .noToken => 401
  | .invalidToken => 403
  | .userNotFound => 401
  | .suspended => 403
  | .sessionExpired => 401
  | .ok _ => 200

/-- `authenticateToken` (middleware/auth.js lines 98-150): anonymous
short-circuit, token extraction, `jwt.verify` (failure is caught as a
403 invalid-token response), user lookup, suspension check, then the
session-version comparison `(decoded.sessionVersion || 1) !==
(dbUser.session_version || 1)` rejected as 401 before `req.user` is
attached. -/
def authenticateToken (disableAccounts : Bool) (tok : TokenInput)
    (find : Nat → Option UserRec) : AuthOutcome :=
  if disableAccounts then
    .okAnonymous
  else
    match tok with
    | .missing => .noToken
    | .invalid => .invalidToken
    | .valid p =>
      match find p.id with
      | none => .userNotFound
      | some dbUser =>
        if dbUser.status = "SUSPENDED" ∨ dbUser.is_active = 0 then
          .suspended
        else if jsOrOne p.sessionVersion ≠ jsOrOne dbUser.session_version then
          .sessionExpired
        else
          .ok { id := dbUser.id
                username := dbUser.username
                role := jsOrStr dbUser.role "USER"
                status := if dbUser.status = "" then "ACTIVE" else dbUser.status
                is_admin := dbUser.is_admin
                session_version := jsOrOne dbUser.session_version
                force_password_reset := dbUser.force_password_reset }

/-- The `Permissions` object of security/permissions.js lines 9-23, in
declaration order. -/
def PermissionValues : List String :=
  [ "snippet.read.self"
  , "snippet.write.self"
  , "snippet.delete.self"
  , "snippet.public.publish"
  , "community.view.public"
  , "admin.panel.access"
  , "admin.users.read"
  , "admin.users.write"
  , "admin.snippets.moderate"
  , "admin.system.settings.write"
  , "admin.audit.read"
  , "moderation.queue.read"
  , "moderation.actions.write" ]

/-- The ADMIN entry of `rolePermissions` (permissions.js lines 27-41). -/
def adminRolePermissions : List String :=
  [ "snippet.read.self"
  , "snippet.write.self"
  , "snippet.delete.self"
  , "snippet.public.publish"
  , "community.view.public"
  , "admin.panel.access"
  , "admin.users.read"
  , "admin.users.write"
  , "admin.snippets.moderate"
  , "admin.system.settings.write"
  , "admin.audit.read"
  , "moderation.queue.read"
  , "moderation.actions.write" ]

/-- The MODERATOR entry of `rolePermissions` (permissions.js lines
42-54). -/
def moderatorRolePermissions : List String :=
  [ "snippet.read.self"
  , "snippet.write.self"
  , "snippet.delete.self"
  , "snippet.public.publish"
  , "community.view.public"
  , "admin.panel.access"
  , "admin.users.read"
  , "admin.snippets.moderate"
  , "moderation.queue.read"
  , "moderation.actions.write"
  , "admin.audit.read" ]

/-- The USER entry of `rolePermissions` (permissions.js lines 55-61). -/
def userRolePermissions : List String :=
  [ "snippet.read.self"
  , "snippet.write.self"
  , "snippet.delete.self"
  , "snippet.public.publish"
  , "community.view.public" ]

/-- The READ_ONLY entry of `rolePermissions` (permissions.js lines
62-65). -/
def readOnlyRolePermissions : List String :=
  [ "snippet.read.self"
  , "community.view.public" ]

/-- The `rolePermissions` map (permissions.js lines 25-66):
SUPER_ADMIN's set is `Object.values(Permissions)`, i.e. the full
universe of declared permissions; absent keys give `undefined`. -/
def rolePermissions (role : String) : Option (List String) :=
  if role = "SUPER_ADMIN" then some PermissionValues
  else if role = "ADMIN" then some adminRolePermissions
  else if role = "MODERATOR" then some moderatorRolePermissions
  else if role = "USER" then some userRolePermissions
  else if role = "READ_ONLY" then some readOnlyRolePermissions
  else none

/-- `normalizeRole` (permissions.js lines 68-79): falsy input and any
string whose upper-cased form is not a `rolePermissions` key default to
USER. -/
def normalizeRole (role : Option String) : String :=
  match role with
  | none => "USER"
  | some r =>
    if r = "" then "USER"
    else
      let n := jsToUpper r
      if (rolePermissions n).isSome then n else "USER"

/-- `getPermissionsByRole` (permissions.js lines 81-84). -/
def getPermissionsByRole (role : Option String) : List String :=
  (rolePermissions (normalizeRole role)).getD userRolePermissions

/-- `hasPermission` (permissions.js lines 86-92): a falsy permission is
never granted. -/
def hasPermission (role : Option String) (permission : String) : Bool :=
  if permission = "" then false
  else (getPermissionsByRole role).contains permission

/-- The slice of `req.user` that `requirePermission` inspects. -/
structure ReqUser where
  id : Nat
  username : String
  role : Option String
deriving Repr, DecidableEq

/-- Outcome of an ACL/gateway filter: pass the request on, or respond
with a status code and a single-field JSON body (key/value pairs). -/
inductive AclOutcome where
  | next : AclOutcome
  | respond (status : Nat) (body : List (String × String)) : AclOutcome
deriving Repr, DecidableEq

/-- `requirePermission` (security/aclMiddleware.js lines 16-32): 401
`{message: "Authentication required"}` without a user, 403
`{message: "Insufficient permissions"}` when the normalized role lacks
the permission, otherwise `next()`. -/
def requirePermission (permission : String) (user : Option ReqUser) : AclOutcome :=
  match user with
  | none => .respond 401 [("message", "Authentication required")]
  | some u =>
    let role := normalizeRole u.role
    if hasPermission (some role) permission then .next
    else .respond 403 [("message", "Insufficient permissions")]

/-- The first list is an initial segment of the second. -/
def startsWithChars : List Char → List Char → Bool
  | [], _ => true
  | _ :: _, [] => false
  | a :: as, b :: bs => a == b && startsWithChars as bs

/-- The first list occurs as a contiguous segment of the second. -/
def containsChars (sub : List Char) : List Char → Bool
  | [] => sub.isEmpty
  | c :: rest => startsWithChars sub (c :: rest) || containsChars sub rest

/-- JavaScript `String.prototype.includes`: `sub` occurs somewhere in
`s`. -/
def strIncludes (s sub : String) : Bool :=
  containsChars sub.data s.data

/-- JavaScript `String.prototype.startsWith`: `pre` is an initial
segment of `s`. -/
def strStartsWith (s pre : String) : Bool :=
  startsWithChars pre.data s.data

/-- `BypassApiPrefixes` of the maintenance guard module: auth-config
discovery, login, and the OIDC entry points. -/
def BypassPathList : List String :=
  ["/api/auth/config", "/api/auth/login", "/api/auth/oidc"]

/-- `hasBypassPath` of the maintenance guard module: any path containing
`/api-docs` bypasses, as does any path starting with
`basePath + entry` for an entry of `BypassPathList`. -/
def hasBypassPath (basePath requestPath : String) : Bool :=
  if strIncludes requestPath "/api-docs" then true
  else BypassPathList.any (fun entry => strStartsWith requestPath (basePath ++ entry))

/-- Role string the maintenance guard resolves for a verified payload:
`String(user?.role || "").toUpperCase()` over the `findById` result. -/
def resolvedMaintRole (find : Nat → Option UserRec) (p : TokenPayload) : String :=
  jsToUpper (((find p.id).bind (fun u => u.role)).getD "")

/-- Outcome of the maintenance gate: pass the request on or answer with
a status code and error string. -/
inductive GuardOutcome where
  | next : GuardOutcome
  | respond (status : Nat) (error : String) : GuardOutcome
deriving Repr, DecidableEq

/-- `maintenanceModeGuard` of the maintenance guard module: a no-op when
the mode is off or the path is not API-prefixed (and not an api-docs
path); bypass paths pass; otherwise a missing token, a token
`jwt.verify` rejects (the catch block), an unknown user, and any
resolved role other than SUPER_ADMIN/ADMIN all produce the identical
503 `Maintenance mode is enabled` response. -/
def maintenanceModeGuard (enabled : Bool) (basePath path : String)
    (tok : TokenInput) (find : Nat → Option UserRec) : GuardOutcome :=
  if !enabled then
    .next
  else if !(strStartsWith path (basePath ++ "/api")) && !(strIncludes path "/api-docs") then
    .next
  else if hasBypassPath basePath path then
    .next
  else
    match tok with
    | .missing => .respond 503 "Maintenance mode is enabled"
    | .invalid => .respond 503 "Maintenance mode is enabled"
    | .valid p =>
      let role := resolvedMaintRole find p
      if role = "SUPER_ADMIN" ∨ role = "ADMIN" then .next
      else .respond 503 "Maintenance mode is enabled"

/-- A rate-limit bucket as stored in the in-memory map of the rate
limiter module: request count, window start, and the window length the
bucket was created with. -/
structure Bucket where
  count : Nat
  windowStart : Int
  windowMs : Int
deriving Repr, DecidableEq

/-- Decision of one rate-limiter invocation, carrying the
`X-RateLimit-Limit` and `X-RateLimit-Remaining` header values and, on
rejection, the `Retry-After` header and the `{error, scope}` body's
scope. -/
inductive RateDecision where
  | allowed (limitHeader remainingHeader : Int) : RateDecision
  | rejected (limitHeader remainingHeader retryAfter : Int) (scope : String) : RateDecision
deriving Repr, DecidableEq

/-- The remaining-quota header every decision carries. -/
def RateDecision.remainingHeader : RateDecision → Int
  | .allowed _ r => r
  | .rejected _ r _ _ => r

/-- HTTP behavior of a decision: 429 on rejection, pass-through
otherwise. -/
def RateDecision.isRejected : RateDecision → Bool
  | .allowed _ _ => false
  | .rejected _ _ _ _ => true

/-- JavaScript `Math.ceil(x / 1000)` on an integer millisecond count:
the negated floor division of the negation. -/
def jsCeilDivThousand (x : Int) : Int :=
  -(Int.fdiv (-x) 1000)

/-- One invocation of the filter returned by `createRateLimiter` in the
rate limiter module, for the current `limit` and `windowMs` settings:
with no bucket, or once `now - windowStart >= windowMs`, a fresh bucket
with count 1 is stored and the request passes with
`Remaining = limit - 1`; otherwise the count is incremented, both quota
headers are set, and the request is rejected with 429 and
`Retry-After = max(1, ceil((windowStart + windowMs - now)/1000))`
exactly when the incremented count exceeds the limit. -/
def rateLimitStep (limit windowMs now : Int) (scope : String)
    (existing : Option Bucket) : Bucket × RateDecision :=
  match existing with
  | none =>
    ({ count := 1, windowStart := now, windowMs := windowMs },
     .allowed limit (limit - 1))
  | some b =>
    if now - b.windowStart ≥ windowMs then
      ({ count := 1, windowStart := now, windowMs := windowMs },
       .allowed limit (limit - 1))
    else if ((b.count + 1 : Nat) : Int) > limit then
      ({ b with count := b.count + 1 },
       .rejected limit (max 0 (limit - ((b.count + 1 : Nat) : Int)))
         (max 1 (jsCeilDivThousand (b.windowStart + windowMs - now))) scope)
    else
      ({ b with count := b.count + 1 },
       .allowed limit (max 0 (limit - ((b.count + 1 : Nat) : Int))))

/-- `normalizeRegistrationMode` (routes/authRoutes.js lines 29-35):
upper-cases the setting and falls back to OPEN for anything that is not
one of the three modes. -/
def normalizeRegistrationMode (mode : String) : String :=
  let upper := jsToUpper mode
  if upper = "OPEN" ∨ upper = "APPROVAL" ∨ upper = "CLOSED" then upper
  else "OPEN"

/-- Observable outcome of `router.post('/register')`. -/
structure RegOutcome where
  httpStatus : Nat
  role : Option String
  status : Option String
  pendingApproval : Bool
  error : Option String
deriving Repr, DecidableEq

/-- `router.post('/register')` (routes/authRoutes.js lines 110-177):
disabled internal accounts are refused 403; with no prior users
(`COUNT(*) ... WHERE id != 0` is zero) the account is created
SUPER_ADMIN/ACTIVE; otherwise CLOSED refuses 403, APPROVAL creates a
PENDING user answered 202 with `pendingApproval: true`, and the
remaining (OPEN) case creates an ACTIVE user answered 200. -/
def registerRoute (disableInternalAccounts hasUsers : Bool) (mode : String) : RegOutcome :=
  if disableInternalAccounts then
    { httpStatus := 403, role := none, status := none, pendingApproval := false
      error := some "Internal account registration is disabled" }
  else
    let m := normalizeRegistrationMode mode
    if !hasUsers then
      { httpStatus := 200, role := some "SUPER_ADMIN", status := some "ACTIVE"
        pendingApproval := false, error := none }
    else if m = "CLOSED" then
      { httpStatus := 403, role := none, status := none, pendingApproval := false
        error := some "New account registration is closed" }
    else if m = "APPROVAL" then
      { httpStatus := 202, role := some "USER", status := some "PENDING"
        pendingApproval := true, error := none }
    else
      { httpStatus := 200, role := some "USER", status := some "ACTIVE"
        pendingApproval := false, error := none }

/-- C1 counterexample: with the configured policy maxAttempts = 1,
lockoutMinutes = 0 and now = 0, the failing attempt reaches the max but
the stored lock expiry is now + 60000 ms (one minute, from
`Math.max(1, lockoutMinutes)`), not now + lockoutMinutes minutes = 0. -/
theorem recordFailedLogin_duration_counterexample :
    (recordFailedLogin sampleUser 1 0 0).locked_until = some 60000
  ∧ (recordFailedLogin sampleUser 1 0 0).locked_until ≠ some (0 + 0 * 60 * 1000) := by
  decide

/-- C1 (amended): one failed login attempt increments
`failedLoginAttempts` by exactly one; `lockedUntil` is set to
now + max(1, lockoutMinutes) minutes exactly when the incremented count
reaches the configured max and is null below the max; no other field of
the user record changes. -/
theorem recordFailedLogin_spec (u : UserRec) (maxAttempts lockoutMinutes now : Int) :
    (recordFailedLogin u maxAttempts lockoutMinutes now).failed_login_attempts
      = u.failed_login_attempts + 1
  ∧ (((u.failed_login_attempts + 1 : Nat) : Int) ≥ maxAttempts →
      (recordFailedLogin u maxAttempts lockoutMinutes now).locked_until
        = some (now + max 1 lockoutMinutes * 60 * 1000))
  ∧ (((u.failed_login_attempts + 1 : Nat) : Int) < maxAttempts →
      (recordFailedLogin u maxAttempts lockoutMinutes now).locked_until = none)
  ∧ (recordFailedLogin u maxAttempts lockoutMinutes now).id = u.id
  ∧ (recordFailedLogin u maxAttempts lockoutMinutes now).username = u.username
  ∧ (recordFailedLogin u maxAttempts lockoutMinutes now).role = u.role
  ∧ (recordFailedLogin u maxAttempts lockoutMinutes now).status = u.status
  ∧ (recordFailedLogin u maxAttempts lockoutMinutes now).is_admin = u.is_admin
  ∧ (recordFailedLogin u maxAttempts lockoutMinutes now).is_active = u.is_active
  ∧ (recordFailedLogin u maxAttempts lockoutMinutes now).force_password_reset
      = u.force_password_reset
  ∧ (recordFailedLogin u maxAttempts lockoutMinutes now).session_version
      = u.session_version
  ∧ (recordFailedLogin u maxAttempts lockoutMinutes now).last_login_at
      = u.last_login_at := by
  unfold recordFailedLogin
  refine ⟨rfl, fun h => ?_, fun h => ?_, rfl, rfl, rfl, rfl, rfl, rfl, rfl, rfl, rfl⟩
  · show (if _ then _ else _) = _
    rw [if_pos h]
  · show (if _ then _ else _) = _
    rw [if_neg (not_le.mpr h)]

/-- Witness for C1's amended theorem at a concrete locking input. -/
theorem recordFailedLogin_spec_witness :
    (recordFailedLogin sampleUser 1 0 0).failed_login_attempts
      = sampleUser.failed_login_attempts + 1
  ∧ (recordFailedLogin sampleUser 1 0 0).locked_until
      = some (0 + max 1 0 * 60 * 1000) :=
  ⟨(recordFailedLogin_spec sampleUser 1 0 0).1,
   (recordFailedLogin_spec sampleUser 1 0 0).2.1 (by decide)⟩

/-- C4 counterexample: a reset-sessions operation targeting the
anonymous id-0 user leaves `sessionVersion` unchanged, because every
session-version statement is guarded by `id != 0`. -/
theorem adminResetSessions_anonymous_counterexample :
    (adminResetUserSessions anonymousUser).session_version
      = anonymousUser.session_version
  ∧ (adminResetUserSessions anonymousUser).session_version
      ≠ anonymousUser.session_version + 1 := by
  decide

/-- C4 (amended): for every target user other than the anonymous id-0
user, each admin reset-sessions, role change, status change, and
force-password-reset operation increments the target's sessionVersion
by exactly one. -/
theorem adminOps_increment_session_version (u : UserRec) (st rl : String)
    (b : Bool) (h : u.id ≠ 0) :
    (adminResetUserSessions u).session_version = u.session_version + 1
  ∧ (adminSetUserStatus u st).session_version = u.session_version + 1
  ∧ (adminSetUserRole u rl).session_version = u.session_version + 1
  ∧ (adminSetForcePasswordReset u b).session_version = u.session_version + 1 := by
  simp [adminResetUserSessions, adminSetUserStatus, adminSetUserRole,
        adminSetForcePasswordReset, incrementSessionVersion, updateStatus,
        updateRole, setForcePasswordReset, h]

/-- Witness for C4's amended theorem at a concrete non-anonymous
user. -/
theorem adminOps_increment_session_version_witness :
    (adminResetUserSessions sampleUser).session_version
      = sampleUser.session_version + 1
  ∧ (adminSetUserStatus sampleUser "SUSPENDED").session_version
      = sampleUser.session_version + 1
  ∧ (adminSetUserRole sampleUser "ADMIN").session_version
      = sampleUser.session_version + 1
  ∧ (adminSetForcePasswordReset sampleUser true).session_version
      = sampleUser.session_version + 1 :=
  adminOps_increment_session_version sampleUser "SUSPENDED" "ADMIN" true (by decide)

/-- A suspended, locked user with a nonzero id, used as the concrete
input of the C10 witness. -/
def suspendedLockedUser : UserRec :=
  { id := 9
    username := "mallory"
    role := some "USER"
    status := "SUSPENDED"
    is_admin := 0
    is_active := 0
    failed_login_attempts := 4
    locked_until := some 99999
    force_password_reset := true
    session_version := 3
    last_login_at := some 11 }

/-- C10: admin unlock of any user with id other than 0 sets status to
ACTIVE, zeroes `failedLoginAttempts` and clears `lockedUntil` (so a
SUSPENDED or PENDING user transitions to ACTIVE), and no other field of
the user record changes. -/
theorem unlockUser_spec (u : UserRec) (h : u.id ≠ 0) :
    (unlockUser u).status = "ACTIVE"
  ∧ (unlockUser u).failed_login_attempts = 0
  ∧ (unlockUser u).locked_until = none
  ∧ (unlockUser u).id = u.id
  ∧ (unlockUser u).username = u.username
  ∧ (unlockUser u).role = u.role
  ∧ (unlockUser u).is_admin = u.is_admin
  ∧ (unlockUser u).is_active = u.is_active
  ∧ (unlockUser u).force_password_reset = u.force_password_reset
  ∧ (unlockUser u).session_version = u.session_version
  ∧ (unlockUser u).last_login_at = u.last_login_at := by
  unfold unlockUser
  rw [if_pos h]
  exact ⟨rfl, rfl, rfl, rfl, rfl, rfl, rfl, rfl, rfl, rfl, rfl⟩

/-- Witness for C10 on a concrete suspended, locked, nonzero-id user. -/
theorem unlockUser_spec_witness :
    (unlockUser suspendedLockedUser).status = "ACTIVE"
  ∧ (unlockUser suspendedLockedUser).failed_login_attempts = 0
  ∧ (unlockUser suspendedLockedUser).locked_until = none
  ∧ (unlockUser suspendedLockedUser).session_version
      = suspendedLockedUser.session_version :=
  ⟨(unlockUser_spec suspendedLockedUser (by decide)).1,
   (unlockUser_spec suspendedLockedUser (by decide)).2.1,
   (unlockUser_spec suspendedLockedUser (by decide)).2.2.1,
   (unlockUser_spec suspendedLockedUser (by decide)).2.2.2.2.2.2.2.2.2.1⟩

/-- A locked variant of the sample user: two failed attempts and a lock
expiring at t = 500000 ms. -/
def lockedSampleUser : UserRec :=
  { sampleUser with failed_login_attempts := 2, locked_until := some 500000 }

/-- C2: a login request against a user whose `lockedUntil` is in the
future answers 423 carrying that `lockedUntil`, leaves the user row
unchanged (no counter increment, no lock change), and its outcome is
independent of the password-verification oracle — the lockout check
runs before any password check. -/
theorem login_locked_spec (u : UserRec) (pv pv' : Bool)
    (maxAttempts lockoutMinutes now : Int) (hlock : isLocked u now = true) :
    loginRoute false (some u) pv maxAttempts lockoutMinutes now
      = (.locked u.locked_until, some u)
  ∧ (loginRoute false (some u) pv maxAttempts lockoutMinutes now).1.httpStatus = 423
  ∧ loginRoute false (some u) pv maxAttempts lockoutMinutes now
      = loginRoute false (some u) pv' maxAttempts lockoutMinutes now := by
  have key : ∀ b : Bool,
      loginRoute false (some u) b maxAttempts lockoutMinutes now
        = (.locked u.locked_until, some u) := by
    intro b
    simp [loginRoute, hlock]
  exact ⟨key pv, by rw [key pv]; rfl, by rw [key pv, key pv']⟩

/-- Witness for C2 on a concrete locked user at now = 0, applied with
both oracle answers. -/
theorem login_locked_spec_witness :
    loginRoute false (some lockedSampleUser) true 5 15 0
      = (.locked lockedSampleUser.locked_until, some lockedSampleUser)
  ∧ (loginRoute false (some lockedSampleUser) true 5 15 0).1.httpStatus = 423
  ∧ loginRoute false (some lockedSampleUser) true 5 15 0
      = loginRoute false (some lockedSampleUser) false 5 15 0 :=
  login_locked_spec lockedSampleUser true false 5 15 0 (by decide)

/-- C5: with internal accounts enabled, registration with no prior
non-anonymous user creates a SUPER_ADMIN/ACTIVE account (200)
regardless of the registration mode; otherwise the normalized mode
decides: OPEN creates USER/ACTIVE (200), APPROVAL creates USER/PENDING
with a 202 pending result, CLOSED refuses with a 403 error. -/
theorem registerRoute_spec (mode : String) :
    registerRoute false false mode
      = { httpStatus := 200, role := some "SUPER_ADMIN", status := some "ACTIVE"
          pendingApproval := false, error := none }
  ∧ (normalizeRegistrationMode mode = "OPEN" →
      registerRoute false true mode
        = { httpStatus := 200, role := some "USER", status := some "ACTIVE"
            pendingApproval := false, error := none })
  ∧ (normalizeRegistrationMode mode = "APPROVAL" →
      registerRoute false true mode
        = { httpStatus := 202, role := some "USER", status := some "PENDING"
            pendingApproval := true, error := none })
  ∧ (normalizeRegistrationMode mode = "CLOSED" →
      registerRoute false true mode
        = { httpStatus := 403, role := none, status := none
            pendingApproval := false
            error := some "New account registration is closed" }) := by
  refine ⟨by simp [registerRoute], fun h => ?_, fun h => ?_, fun h => ?_⟩ <;>
    simp [registerRoute, h]

/-- Witness for C5: first-user bootstrap even under CLOSED mode, and the
APPROVAL pending flow for a subsequent user (lower-case stored mode). -/
theorem registerRoute_spec_witness :
    registerRoute false false "CLOSED"
      = { httpStatus := 200, role := some "SUPER_ADMIN", status := some "ACTIVE"
          pendingApproval := false, error := none }
  ∧ registerRoute false true "approval"
      = { httpStatus := 202, role := some "USER", status := some "PENDING"
          pendingApproval := true, error := none } :=
  ⟨(registerRoute_spec "CLOSED").1,
   (registerRoute_spec "approval").2.2.1 (by decide)⟩

/-- Evaluation of `authenticateToken` on a verified payload whose user
exists and is neither suspended nor inactive: everything reduces to the
session-version comparison. -/
theorem authenticateToken_valid_eval (find : Nat → Option UserRec)
    (p : TokenPayload) (u : UserRec) (hf : find p.id = some u)
    (hs : u.status ≠ "SUSPENDED") (ha : u.is_active ≠ 0) :
    authenticateToken false (.valid p) find =
      if jsOrOne p.sessionVersion ≠ jsOrOne u.session_version then
        .sessionExpired
      else
        .ok { id := u.id
              username := u.username
              role := jsOrStr u.role "USER"
              status := if u.status = "" then "ACTIVE" else u.status
              is_admin := u.is_admin
              session_version := jsOrOne u.session_version
              force_password_reset := u.force_password_reset } := by
  simp [authenticateToken, hf, hs, ha]

/-- C3: for a verified credential over an existing, non-suspended,
active user, `authenticateToken` rejects with 401 (session expired)
exactly when the credential's embedded `sessionVersion` differs from
the stored `session_version`; consequently a credential minted before
`incrementSessionVersion` is rejected after the increment while a
credential minted from the refreshed user succeeds. -/
theorem authenticateToken_sessionVersion_spec :
    (∀ (find : Nat → Option UserRec) (p : TokenPayload) (u : UserRec),
        find p.id = some u → u.status ≠ "SUSPENDED" → u.is_active ≠ 0 →
        ((authenticateToken false (.valid p) find = .sessionExpired)
            ↔ jsOrOne p.sessionVersion ≠ jsOrOne u.session_version)
        ∧ (jsOrOne p.sessionVersion ≠ jsOrOne u.session_version →
            (authenticateToken false (.valid p) find).statusCode = 401))
  ∧ (∀ u : UserRec, u.id ≠ 0 → 1 ≤ u.session_version →
        u.status ≠ "SUSPENDED" → u.is_active ≠ 0 →
        authenticateToken false (.valid (createSessionToken u))
            (fun i => if i = u.id then some (incrementSessionVersion u) else none)
          = .sessionExpired
        ∧ (authenticateToken false
              (.valid (createSessionToken (incrementSessionVersion u)))
              (fun i => if i = u.id then some (incrementSessionVersion u) else none)).statusCode
            = 200) := by
  constructor
  · intro find p u hf hs ha
    rw [authenticateToken_valid_eval find p u hf hs ha]
    by_cases hv : jsOrOne p.sessionVersion = jsOrOne u.session_version
    · simp [hv, AuthOutcome.statusCode]
    · simp [hv, AuthOutcome.statusCode]
  · intro u h0 h1 hs ha
    have hinc : incrementSessionVersion u
        = { u with session_version := u.session_version + 1 } := by
      unfold incrementSessionVersion
      rw [if_pos h0]
    have hvz : u.session_version ≠ 0 := by omega
    have hjs1 : jsOrOne u.session_version = u.session_version := by
      simp [jsOrOne, hvz]
    have hjs2 : jsOrOne (u.session_version + 1) = u.session_version + 1 := by
      simp [jsOrOne]
    have hs' : (incrementSessionVersion u).status ≠ "SUSPENDED" := by
      rw [hinc]; exact hs
    have ha' : (incrementSessionVersion u).is_active ≠ 0 := by
      rw [hinc]; exact ha
    have hfindOld :
        (fun i => if i = u.id then some (incrementSessionVersion u) else none)
          (createSessionToken u).id = some (incrementSessionVersion u) := by
      simp [createSessionToken]
    have hfindFresh :
        (fun i => if i = u.id then some (incrementSessionVersion u) else none)
          (createSessionToken (incrementSessionVersion u)).id
          = some (incrementSessionVersion u) := by
      simp [createSessionToken, hinc]
    have hnewv : (incrementSessionVersion u).session_version
        = u.session_version + 1 := by
      rw [hinc]
    constructor
    · rw [authenticateToken_valid_eval _ _ _ hfindOld hs' ha']
      rw [if_pos]
      show jsOrOne (createSessionToken u).sessionVersion
          ≠ jsOrOne (incrementSessionVersion u).session_version
      rw [hnewv, hjs2]
      show jsOrOne (jsOrOne u.session_version) ≠ u.session_version + 1
      rw [hjs1, hjs1]
      omega
    · rw [authenticateToken_valid_eval _ _ _ hfindFresh hs' ha']
      rw [if_neg]
      · rfl
      · rw [hnewv]
        show ¬(jsOrOne (jsOrOne (incrementSessionVersion u).session_version)
            ≠ jsOrOne (u.session_version + 1))
        rw [hnewv, hjs2, hjs2]
        omega

/-- A concrete lookup table and stale payload (version 2 against stored
version 1) for the C3 witness. -/
def c3Find : Nat → Option UserRec :=
  fun i => if i = 7 then some sampleUser else none

/-- The stale payload used in the C3 witness. -/
def c3Payload : TokenPayload :=
  { id := 7, username := "alice", role := "USER", status := "ACTIVE"
    sessionVersion := 2 }

/-- Witness for C3: a mismatched payload is rejected as session-expired
for a concrete user, a pre-increment credential is rejected after the
increment, and a freshly minted credential passes with 200. -/
theorem authenticateToken_sessionVersion_spec_witness :
    authenticateToken false (.valid c3Payload) c3Find = .sessionExpired
  ∧ authenticateToken false (.valid (createSessionToken sampleUser))
      (fun i => if i = sampleUser.id then some (incrementSessionVersion sampleUser) else none)
      = .sessionExpired
  ∧ (authenticateToken false
      (.valid (createSessionToken (incrementSessionVersion sampleUser)))
      (fun i => if i = sampleUser.id then some (incrementSessionVersion sampleUser) else none)).statusCode
      = 200 :=
  ⟨(authenticateToken_sessionVersion_spec.1 c3Find c3Payload sampleUser
      (by decide) (by decide) (by decide)).1.mpr (by decide),
   (authenticateToken_sessionVersion_spec.2 sampleUser
      (by decide) (by decide) (by decide) (by decide)).1,
   (authenticateToken_sessionVersion_spec.2 sampleUser
      (by decide) (by decide) (by decide) (by decide)).2⟩

/-- `getPermissionsByRole` always returns one of the five declared role
sets (unrecognized and missing roles normalize to USER). -/
theorem getPermissionsByRole_cases (r : Option String) :
    getPermissionsByRole r = PermissionValues
  ∨ getPermissionsByRole r = adminRolePermissions
  ∨ getPermissionsByRole r = moderatorRolePermissions
  ∨ getPermissionsByRole r = userRolePermissions
  ∨ getPermissionsByRole r = readOnlyRolePermissions := by
  by_cases h1 : normalizeRole r = "SUPER_ADMIN"
  · simp [getPermissionsByRole, rolePermissions, h1]
  by_cases h2 : normalizeRole r = "ADMIN"
  · simp [getPermissionsByRole, rolePermissions, h1, h2]
  by_cases h3 : normalizeRole r = "MODERATOR"
  · simp [getPermissionsByRole, rolePermissions, h1, h2, h3]
  by_cases h4 : normalizeRole r = "USER"
  · simp [getPermissionsByRole, rolePermissions, h1, h2, h3, h4]
  by_cases h5 : normalizeRole r = "READ_ONLY"
  · simp [getPermissionsByRole, rolePermissions, h1, h2, h3, h4, h5]
  · simp [getPermissionsByRole, rolePermissions, h1, h2, h3, h4, h5]

/-- C8: role-to-permission lookup is a pure function (repeated calls
agree definitionally), SUPER_ADMIN's permission set contains every
permission any role holds, and SUPER_ADMIN's set is exactly the full
universe of declared permissions. -/
theorem permissionsOf_spec :
    (∀ r : Option String, getPermissionsByRole r = getPermissionsByRole r)
  ∧ (∀ r : Option String, ∀ p ∈ getPermissionsByRole r,
        p ∈ getPermissionsByRole (some "SUPER_ADMIN"))
  ∧ getPermissionsByRole (some "SUPER_ADMIN") = PermissionValues := by
  refine ⟨fun r => rfl, ?_, by decide⟩
  intro r p hp
  have hsuper : getPermissionsByRole (some "SUPER_ADMIN") = PermissionValues := by
    decide
  rw [hsuper]
  rcases getPermissionsByRole_cases r with h | h | h | h | h <;> rw [h] at hp
  · exact hp
  · exact (by decide : ∀ x ∈ adminRolePermissions, x ∈ PermissionValues) p hp
  · exact (by decide : ∀ x ∈ moderatorRolePermissions, x ∈ PermissionValues) p hp
  · exact (by decide : ∀ x ∈ userRolePermissions, x ∈ PermissionValues) p hp
  · exact (by decide : ∀ x ∈ readOnlyRolePermissions, x ∈ PermissionValues) p hp

/-- Witness for C8's superset clause at a concrete role and
permission. -/
theorem permissionsOf_spec_witness :
    "community.view.public" ∈ getPermissionsByRole (some "READ_ONLY")
  ∧ "community.view.public" ∈ getPermissionsByRole (some "SUPER_ADMIN") :=
  ⟨by decide,
   permissionsOf_spec.2.1 (some "READ_ONLY") "community.view.public" (by decide)⟩

/-- C9 counterexample: the permission gate's unauthenticated rejection
body is keyed `message`, not `error`, at status 401. -/
theorem requirePermission_bodyKey_counterexample :
    requirePermission "admin.users.read" none
      = .respond 401 [("message", "Authentication required")]
  ∧ requirePermission "admin.users.read" none
      ≠ .respond 401 [("error", "Authentication required")] := by
  decide

/-- C9 (amended): the permission gate rejects an unauthenticated
request with 401 and body `message: Authentication required`, rejects
an authenticated request whose normalized role lacks the required
permission with 403 and body `message: Insufficient permissions`, and
passes the request through otherwise. -/
theorem requirePermission_spec (permission : String) (user : Option ReqUser) :
    (user = none →
      requirePermission permission user
        = .respond 401 [("message", "Authentication required")])
  ∧ (∀ u, user = some u →
      hasPermission (some (normalizeRole u.role)) permission = false →
      requirePermission permission user
        = .respond 403 [("message", "Insufficient permissions")])
  ∧ (∀ u, user = some u →
      hasPermission (some (normalizeRole u.role)) permission = true →
      requirePermission permission user = .next) := by
  refine ⟨fun h => ?_, fun u hu hperm => ?_, fun u hu hperm => ?_⟩
  · rw [h]
    rfl
  · rw [hu]
    simp [requirePermission, hperm]
  · rw [hu]
    simp [requirePermission, hperm]

/-- Witness for C9's amended theorem: an unauthenticated request, an
under-privileged USER, and an ADMIN holding the permission. -/
theorem requirePermission_spec_witness :
    requirePermission "admin.users.write" none
      = .respond 401 [("message", "Authentication required")]
  ∧ requirePermission "admin.users.write" (some ⟨7, "alice", some "USER"⟩)
      = .respond 403 [("message", "Insufficient permissions")]
  ∧ requirePermission "admin.users.write" (some ⟨8, "root", some "ADMIN"⟩)
      = .next :=
  ⟨(requirePermission_spec "admin.users.write" none).1 rfl,
   (requirePermission_spec "admin.users.write"
      (some ⟨7, "alice", some "USER"⟩)).2.1 ⟨7, "alice", some "USER"⟩ rfl (by decide),
   (requirePermission_spec "admin.users.write"
      (some ⟨8, "root", some "ADMIN"⟩)).2.2 ⟨8, "root", some "ADMIN"⟩ rfl (by decide)⟩

/-- Evaluation of the maintenance gate on an enabled, API-prefixed,
non-bypass request: the decision reduces to the credential's resolved
role. -/
theorem maintenanceModeGuard_eval (basePath path : String) (tok : TokenInput)
    (find : Nat → Option UserRec)
    (hapi : strStartsWith path (basePath ++ "/api") = true)
    (hbyp : hasBypassPath basePath path = false) :
    maintenanceModeGuard true basePath path tok find =
      match tok with
      | .missing => .respond 503 "Maintenance mode is enabled"
      | .invalid => .respond 503 "Maintenance mode is enabled"
      | .valid p =>
        if resolvedMaintRole find p = "SUPER_ADMIN"
            ∨ resolvedMaintRole find p = "ADMIN" then
          .next
        else
          .respond 503 "Maintenance mode is enabled" := by
  simp [maintenanceModeGuard, hapi, hbyp]

/-- C6: with maintenance mode enabled, a bypass-path request always
passes; any other API-prefixed request passes exactly when it bears a
verified credential whose resolved role is SUPER_ADMIN or ADMIN, and
every failure shape — missing token, token the verifier rejects, or an
insufficient resolved role (this includes an unknown user, whose
resolved role is the empty string) — produces the identical 503
`Maintenance mode is enabled` response. -/
theorem maintenanceModeGuard_spec :
    (∀ (basePath path : String) (tok : TokenInput) (find : Nat → Option UserRec),
        hasBypassPath basePath path = true →
        maintenanceModeGuard true basePath path tok find = .next)
  ∧ (∀ (basePath path : String) (find : Nat → Option UserRec),
        strStartsWith path (basePath ++ "/api") = true →
        hasBypassPath basePath path = false →
        maintenanceModeGuard true basePath path .missing find
            = .respond 503 "Maintenance mode is enabled"
        ∧ maintenanceModeGuard true basePath path .invalid find
            = .respond 503 "Maintenance mode is enabled"
        ∧ (∀ p : TokenPayload,
            (maintenanceModeGuard true basePath path (.valid p) find = .next
              ↔ (resolvedMaintRole find p = "SUPER_ADMIN"
                  ∨ resolvedMaintRole find p = "ADMIN")))
        ∧ (∀ p : TokenPayload,
            ¬(resolvedMaintRole find p = "SUPER_ADMIN"
                ∨ resolvedMaintRole find p = "ADMIN") →
            maintenanceModeGuard true basePath path (.valid p) find
              = .respond 503 "Maintenance mode is enabled")) := by
  constructor
  · intro basePath path tok find hbyp
    simp [maintenanceModeGuard, hbyp]
  · intro basePath path find hapi hbyp
    refine ⟨?_, ?_, fun p => ?_, fun p hrole => ?_⟩
    · rw [maintenanceModeGuard_eval basePath path .missing find hapi hbyp]
    · rw [maintenanceModeGuard_eval basePath path .invalid find hapi hbyp]
    · rw [maintenanceModeGuard_eval basePath path (.valid p) find hapi hbyp]
      by_cases hrole : resolvedMaintRole find p = "SUPER_ADMIN"
          ∨ resolvedMaintRole find p = "ADMIN"
      · simp [hrole]
      · simp [hrole]
    · rw [maintenanceModeGuard_eval basePath path (.valid p) find hapi hbyp]
      simp [hrole]

/-- An ADMIN-role user row for the maintenance-gate witness. -/
def adminUserRec : UserRec :=
  { sampleUser with id := 8, username := "root", role := some "ADMIN", is_admin := 1 }

/-- Witness for C6 at concrete paths, tokens and lookup tables: a
bypass login path passes; a plain API path yields 503 for a missing
token, 503 for an unknown user's valid token, and passes for an ADMIN
user's valid token. -/
theorem maintenanceModeGuard_spec_witness :
    maintenanceModeGuard true "" "/api/auth/login" .missing (fun _ => none) = .next
  ∧ maintenanceModeGuard true "" "/api/snippets" .missing (fun _ => none)
      = .respond 503 "Maintenance mode is enabled"
  ∧ maintenanceModeGuard true "" "/api/snippets"
      (.valid c3Payload) (fun _ => none)
      = .respond 503 "Maintenance mode is enabled"
  ∧ maintenanceModeGuard true "" "/api/snippets"
      (.valid c3Payload) (fun _ => some adminUserRec) = .next :=
  ⟨maintenanceModeGuard_spec.1 "" "/api/auth/login" .missing (fun _ => none) (by decide),
   (maintenanceModeGuard_spec.2 "" "/api/snippets" (fun _ => none)
      (by decide) (by decide)).1,
   (maintenanceModeGuard_spec.2 "" "/api/snippets" (fun _ => none)
      (by decide) (by decide)).2.2.2 c3Payload (by decide),
   (maintenanceModeGuard_spec.2 "" "/api/snippets" (fun _ => some adminUserRec)
      (by decide) (by decide)).2.2.1 c3Payload |>.mpr (by decide)⟩

/-- Evaluation of the rate limiter on a bucket whose window has not
elapsed: the count is incremented and the decision compares it with the
limit. -/
theorem rateLimitStep_inWindow (limit windowMs now : Int) (scope : String)
    (b : Bucket) (h : now - b.windowStart < windowMs) :
    rateLimitStep limit windowMs now scope (some b) =
      ({ b with count := b.count + 1 },
       if (b.count : Int) + 1 > limit then
         .rejected limit (max 0 (limit - ((b.count : Int) + 1)))
           (max 1 (jsCeilDivThousand (b.windowStart + windowMs - now))) scope
       else
         .allowed limit (max 0 (limit - ((b.count : Int) + 1)))) := by
  have hneg : ¬(now - b.windowStart ≥ windowMs) := not_le.mpr h
  by_cases hc : (b.count : Int) + 1 > limit
  · simp [rateLimitStep, hneg, hc]
  · simp [rateLimitStep, hneg, hc]

/-- C7: a request with no bucket, or whose bucket's window has fully
elapsed, starts a fresh bucket with count 1 and is permitted with the
remaining-quota header `limit - 1`; otherwise the count is incremented,
the decision carries the remaining-quota header
`max(0, limit - count)`, the request is rejected with 429 exactly when
the incremented count exceeds the limit, and the rejection's
Retry-After is the remaining window time in seconds rounded up and
clamped to at least 1. -/
theorem rateLimitStep_spec (limit windowMs now : Int) (scope : String) :
    rateLimitStep limit windowMs now scope none
      = ({ count := 1, windowStart := now, windowMs := windowMs },
         .allowed limit (limit - 1))
  ∧ (∀ b : Bucket, now - b.windowStart ≥ windowMs →
      rateLimitStep limit windowMs now scope (some b)
        = ({ count := 1, windowStart := now, windowMs := windowMs },
           .allowed limit (limit - 1)))
  ∧ (∀ b : Bucket, now - b.windowStart < windowMs →
      (rateLimitStep limit windowMs now scope (some b)).1
          = { b with count := b.count + 1 }
      ∧ ((rateLimitStep limit windowMs now scope (some b)).2.isRejected = true
          ↔ (b.count : Int) + 1 > limit)
      ∧ ((b.count : Int) + 1 ≤ limit →
          (rateLimitStep limit windowMs now scope (some b)).2
            = .allowed limit (max 0 (limit - ((b.count : Int) + 1))))
      ∧ ((b.count : Int) + 1 > limit →
          (rateLimitStep limit windowMs now scope (some b)).2
            = .rejected limit (max 0 (limit - ((b.count : Int) + 1)))
                (max 1 (jsCeilDivThousand (b.windowStart + windowMs - now))) scope
          ∧ 1 ≤ max 1 (jsCeilDivThousand (b.windowStart + windowMs - now)))) := by
  refine ⟨rfl, fun b h => ?_, fun b h => ?_⟩
  · simp [rateLimitStep, h]
  · rw [rateLimitStep_inWindow limit windowMs now scope b h]
    refine ⟨rfl, ?_, fun hle => ?_, fun hgt => ?_⟩
    · by_cases hc : (b.count : Int) + 1 > limit
      · simp [hc, RateDecision.isRejected]
      · simp [hc, RateDecision.isRejected]
    · simp [not_lt.mpr hle]
    · exact ⟨by simp [hgt], le_max_left 1 _⟩

/-- Witness for C7 with window = 1000 ms and limit = 3: the fourth
request inside the window is rejected with Retry-After 1, and a request
after the window has elapsed restarts the bucket at count 1. -/
theorem rateLimitStep_spec_witness :
    (rateLimitStep 3 1000 500 "auth" (some { count := 3, windowStart := 0, windowMs := 1000 })).2
      = .rejected 3 0 1 "auth"
  ∧ rateLimitStep 3 1000 1500 "auth" (some { count := 4, windowStart := 0, windowMs := 1000 })
      = ({ count := 1, windowStart := 1500, windowMs := 1000 },
         .allowed 3 2) :=
  ⟨by
    have h := ((rateLimitStep_spec 3 1000 500 "auth").2.2
      { count := 3, windowStart := 0, windowMs := 1000 } (by decide)).2.2.2 (by decide)
    rw [h.1]
    decide,
   (rateLimitStep_spec 3 1000 1500 "auth").2.1
      { count := 4, windowStart := 0, windowMs := 1000 } (by decide)⟩
